import Mathlib

/-!
Shallow embedding of the vulkanalia-bootstrap device-selection and
swapchain-negotiation core (src/device.rs, src/swapchain.rs, src/error.rs),
together with proofs about its negotiation algorithms.

Modelling conventions:
* machine integers (`u32`, `u64`) are modelled as `Nat`; the arithmetic in the
  embedded code never wraps (counts and sizes are only compared, clamped or
  incremented by one well below `2^32`);
* Vulkan bitmask types (`QueueFlags`, `MemoryHeapFlags`) are modelled as `Nat`
  bitmasks with `flags_contains` playing the role of `Flags::contains`;
* `vk::Bool32` fields (`VK_TRUE` / `VK_FALSE`) are modelled as `Bool`;
* fallible operations are modelled with `Except` / `Option`; a Rust panic
  (out-of-bounds index) is modelled as `none`;
* driver calls (`enumerate_physical_devices`, surface queries, feature
  queries, presentation-support probes) are modelled as explicit input data
  threaded into the functions that consume them.
-/

namespace VkBootstrap

/-! ## Swapchain negotiation (src/swapchain.rs) -/

/-- Sentinel value `u32::MAX`: a surface whose `current_extent.width` equals
this value lets the swapchain choose its own extent. -/
def u32Max : Nat := 4294967295

structure Extent2D where
  width : Nat
  height : Nat
deriving DecidableEq, Repr

/-- The fields of `vk::SurfaceCapabilitiesKHR` read by the swapchain
negotiation code. -/
structure SurfaceCapabilities where
  min_image_count : Nat
  max_image_count : Nat
  current_extent : Extent2D
  min_image_extent : Extent2D
  max_image_extent : Extent2D
  max_image_array_layers : Nat
deriving DecidableEq, Repr

/-- Embeds `SwapchainBuilder::find_extent` (src/swapchain.rs:168-189); the
builder fields `desired_width` / `desired_height` are passed explicitly. -/
def find_extent (desired_width desired_height : Nat)
    (capabilities : SurfaceCapabilities) : Extent2D :=
  if capabilities.current_extent.width ≠ u32Max then
    capabilities.current_extent
  else
    { width := max capabilities.min_image_extent.width
        (min capabilities.max_image_extent.width desired_width)
      height := max capabilities.min_image_extent.height
        (min capabilities.max_image_extent.height desired_height) }

/-- Embeds the `Priority` enum (src/swapchain.rs:12-16); the derived order has
`Main < Fallback`. -/
inductive Priority where
  | Main
  | Fallback
deriving DecidableEq, Repr

/-- Derived `Ord`-comparison on `Priority` (`Main < Fallback`). -/
def Priority.le : Priority → Priority → Bool
  | .Main, _ => true
  | .Fallback, .Fallback => true
  | .Fallback, .Main => false

/-- The two fields of `vk::SurfaceFormatKHR`; the format and color-space
enumeration values are modelled as their raw numeric codes. -/
structure SurfaceFormatKHR where
  format : Nat
  color_space : Nat
deriving DecidableEq, Repr

/-- Embeds `Format` (src/swapchain.rs:18-22): a desired surface format tagged
with a priority. -/
structure Format where
  inner : SurfaceFormatKHR
  priority : Priority
deriving DecidableEq, Repr

/-- Embeds `is_sorted_by_key(|f| f.priority)` on the desired-format list:
adjacent pairs are ordered by priority. -/
def isSortedByPriority : List Format → Bool
  | [] => true
  | [_] => true
  | a :: b :: rest => Priority.le a.priority b.priority && isSortedByPriority (b :: rest)

/-- Models `sort_unstable_by_key(|f| f.priority)` on the desired-format list.
With only two key values a sort by key is exactly "all `Main` entries before
all `Fallback` entries"; the source's unstable sort leaves the relative order
of equal-priority entries unspecified, and this model fixes the original
(stable) order.  The functions below only sort when the input is not already
sorted, so on priority-sorted input the model is exact. -/
def sortByPriority (desired : List Format) : List Format :=
  desired.filter (fun f => f.priority = Priority.Main) ++
    desired.filter (fun f => f.priority = Priority.Fallback)

/-- The payload of `SwapchainError::NoSuitableDesiredFormat`
(src/error.rs:78-82). -/
structure FormatError where
  available : List SurfaceFormatKHR
  desired : List SurfaceFormatKHR
deriving DecidableEq, Repr

/-- Embeds `SwapchainError` (src/error.rs:84-102). -/
inductive SwapchainError where
  | SurfaceHandleNotProvided
  | FailedQuerySurfaceSupportDetails
  | FailedCreateSwapchain
  | FailedGetSwapchainImages
  | FailedCreateSwapchainImageViews
  | RequiredMinImageCountTooLow
  | RequiredUsageNotSupported
  | NoSuitableDesiredFormat (err : FormatError)
deriving DecidableEq, Repr

/-- The inner-loop test of `find_desired_surface_format`: the desired entry
`d` exactly matches (format and color space) some available entry. -/
def format_matches (available : List SurfaceFormatKHR) (d : Format) : Bool :=
  available.any fun a =>
    d.inner.format == a.format && d.inner.color_space == a.color_space

/-- Embeds `find_desired_surface_format` (src/swapchain.rs:116-139): sort the
desired list by priority if needed, return the first desired entry exactly
matching some available entry, else the `NoSuitableDesiredFormat` error. -/
def find_desired_surface_format (available : List SurfaceFormatKHR)
    (desired : List Format) : Except SwapchainError SurfaceFormatKHR :=
  let sorted := if isSortedByPriority desired then desired else sortByPriority desired
  match sorted.find? (format_matches available) with
  | some d => .ok d.inner
  | none => .error (.NoSuitableDesiredFormat
      { available := available, desired := sorted.map (·.inner) })

/-- Embeds `find_best_surface_format` (src/swapchain.rs:141-146).  The source
is `find_desired_surface_format(..).unwrap_or(available[0])`; the indexing
`available[0]` is evaluated unconditionally, so an empty `available` list
makes the function panic, which this model renders as `none`. -/
def find_best_surface_format (available : List SurfaceFormatKHR)
    (desired : List Format) : Option SurfaceFormatKHR :=
  match available with
  | [] => none
  | a0 :: _ =>
    match find_desired_surface_format available desired with
    | .ok f => some f
    | .error _ => some a0

/-- Embeds the final clamping step of the image-count negotiation in
`SwapchainBuilder::build` (src/swapchain.rs:365-369): clamp down to the
surface maximum when the surface advertises a nonzero maximum. -/
def clamp_image_count (capabilities : SurfaceCapabilities) (image_count : Nat) : Nat :=
  if capabilities.max_image_count > 0 ∧ image_count > capabilities.max_image_count then
    capabilities.max_image_count
  else
    image_count

/-- Embeds the image-count negotiation of `SwapchainBuilder::build`
(src/swapchain.rs:350-369).  `min_image_count` and
`required_min_image_count` are the builder fields of those names.  The two
final branches are kept from the source even though they are unreachable
(`image_count` is either `≥ 1` or `= 0`). -/
def negotiate_image_count (min_image_count required_min_image_count : Nat)
    (capabilities : SurfaceCapabilities) : Except SwapchainError Nat :=
  let image_count := min_image_count
  if image_count ≥ 1 then
    if required_min_image_count < capabilities.min_image_count then
      .error .RequiredMinImageCountTooLow
    else
      .ok (clamp_image_count capabilities capabilities.min_image_count)
  else if image_count = 0 then
    .ok (clamp_image_count capabilities (capabilities.min_image_count + 1))
  else if image_count < capabilities.min_image_count then
    .ok (clamp_image_count capabilities capabilities.min_image_count)
  else
    .ok (clamp_image_count capabilities image_count)

/-- The image-count-related configuration of `SwapchainBuilder`
(src/swapchain.rs:40-41). -/
structure SwapchainBuilderCounts where
  min_image_count : Nat
  required_min_image_count : Nat
deriving DecidableEq, Repr

/-- Embeds the corresponding initialisation in `SwapchainBuilder::new`
(src/swapchain.rs:207-208): both counts start at zero. -/
def SwapchainBuilderCounts.new : SwapchainBuilderCounts :=
  { min_image_count := 0, required_min_image_count := 0 }

/-- Embeds `SwapchainBuilder::desired_min_image_count`
(src/swapchain.rs:277-280): it writes `min_image_count` only.  No method of
`SwapchainBuilder` ever writes `required_min_image_count`, so that field keeps
its initial value `0` in every reachable builder state. -/
def SwapchainBuilderCounts.desired_min_image_count
    (self : SwapchainBuilderCounts) (min_image_count : Nat) : SwapchainBuilderCounts :=
  { self with min_image_count := min_image_count }

/-! ## Queue-family index lookups (src/device.rs:89-157) -/

/-- Embeds `vk::QueueFlags::contains`: all bits of `other` are set in
`self`. -/
def flags_contains (self other : Nat) : Bool := self &&& other == other

/-- Raw bit of `vk::QueueFlags::GRAPHICS`. -/
def QUEUE_GRAPHICS : Nat := 1
/-- Raw bit of `vk::QueueFlags::COMPUTE`. -/
def QUEUE_COMPUTE : Nat := 2
/-- Raw bit of `vk::QueueFlags::TRANSFER`. -/
def QUEUE_TRANSFER : Nat := 4

/-- The field of `vk::QueueFamilyProperties` read by the queue-index
lookups. -/
structure QueueFamilyProperties where
  queue_flags : Nat
deriving DecidableEq, Repr

/-- Embeds `get_first_queue_index` (src/device.rs:90-97): position of the
first family whose flags contain `desired_flags`. -/
def get_first_queue_index (families : List QueueFamilyProperties)
    (desired_flags : Nat) : Option Nat :=
  families.findIdx? fun f => flags_contains f.queue_flags desired_flags

/-- The loop of `get_separate_queue_index` (src/device.rs:107-118): `i` is
the enumeration index of the head of `families`, `index` the mutable
fallback variable. -/
def get_separate_queue_index_loop (families : List QueueFamilyProperties)
    (desired_flags undesired_flags : Nat) (i : Nat) (index : Option Nat) : Option Nat :=
  match families with
  | [] => index
  | f :: rest =>
    if flags_contains f.queue_flags desired_flags &&
        !flags_contains f.queue_flags QUEUE_GRAPHICS then
      if !flags_contains f.queue_flags undesired_flags then
        some i
      else
        get_separate_queue_index_loop rest desired_flags undesired_flags (i + 1) (some i)
    else
      get_separate_queue_index_loop rest desired_flags undesired_flags (i + 1) index

/-- Embeds `get_separate_queue_index` (src/device.rs:102-121). -/
def get_separate_queue_index (families : List QueueFamilyProperties)
    (desired_flags undesired_flags : Nat) : Option Nat :=
  get_separate_queue_index_loop families desired_flags undesired_flags 0 none

/-- Embeds `get_dedicated_queue_index` (src/device.rs:124-134): position of
the first family with `desired_flags`, without graphics and without
`undesired_flags`. -/
def get_dedicated_queue_index (families : List QueueFamilyProperties)
    (desired_flags undesired_flags : Nat) : Option Nat :=
  families.findIdx? fun f =>
    flags_contains f.queue_flags desired_flags &&
      !flags_contains f.queue_flags QUEUE_GRAPHICS &&
      !flags_contains f.queue_flags undesired_flags

/-- Embeds `get_present_queue_index` (src/device.rs:136-157).  The driver
probe `get_physical_device_surface_support_khr` is modelled by one probe
outcome per queue family, in table order (`none` = the probe call failed,
`some b` = it reported support `b`); when no surface is bound the loop body
never runs and the result is `none`. -/
def get_present_queue_index (surface_some : Bool)
    (present_probes : List (Option Bool)) : Option Nat :=
  if surface_some then
    present_probes.findIdx? fun probe => probe == some true
  else
    none

/-- A good match for the separate-queue lookup: has the desired flag, lacks
graphics and lacks the undesired flag. -/
def separate_queue_good (desired_flags undesired_flags : Nat)
    (f : QueueFamilyProperties) : Bool :=
  flags_contains f.queue_flags desired_flags &&
    !flags_contains f.queue_flags QUEUE_GRAPHICS &&
    !flags_contains f.queue_flags undesired_flags

/-- A fallback match for the separate-queue lookup: has the desired flag and
lacks graphics (the undesired flag may be present). -/
def separate_queue_fallback (desired_flags : Nat) (f : QueueFamilyProperties) : Bool :=
  flags_contains f.queue_flags desired_flags &&
    !flags_contains f.queue_flags QUEUE_GRAPHICS

/-- Index of the first entry satisfying `p`, in table order. -/
def first_index_with (p : QueueFamilyProperties → Bool) :
    List QueueFamilyProperties → Option Nat
  | [] => none
  | f :: rest =>
    if p f then some 0 else (first_index_with p rest).map (· + 1)

/-- Index of the last entry satisfying `p`, in table order. -/
def last_index_with (p : QueueFamilyProperties → Bool) :
    List QueueFamilyProperties → Option Nat
  | [] => none
  | f :: rest =>
    match last_index_with p rest with
    | some j => some (j + 1)
    | none => if p f then some 0 else none

/-- Specification-side description of the separate-queue lookup: the first
good match if one exists, otherwise the last fallback match if one exists,
otherwise nothing.  (The claim under review says "first fallback"; the code
keeps overwriting its fallback variable, so the last one wins.) -/
def separate_queue_index_spec (families : List QueueFamilyProperties)
    (desired_flags undesired_flags : Nat) : Option Nat :=
  match first_index_with (separate_queue_good desired_flags undesired_flags) families with
  | some i => some i
  | none => last_index_with (separate_queue_fallback desired_flags) families

/-! ## Versioned feature structs and the generic feature chain
(src/device.rs:306-848).  Each struct mirrors exactly the `vk::Bool32`
fields that `match_features` / `combine` read and write. -/

structure PhysicalDeviceVulkan11Features where
  storage_buffer_16bit_access : Bool
  uniform_and_storage_buffer_16bit_access : Bool
  storage_push_constant16 : Bool
  storage_input_output16 : Bool
  multiview : Bool
  multiview_geometry_shader : Bool
  multiview_tessellation_shader : Bool
  variable_pointers_storage_buffer : Bool
  variable_pointers : Bool
  protected_memory : Bool
  sampler_ycbcr_conversion : Bool
  shader_draw_parameters : Bool
deriving DecidableEq, Repr, Inhabited

structure PhysicalDeviceVulkan12Features where
  sampler_mirror_clamp_to_edge : Bool
  draw_indirect_count : Bool
  storage_buffer_8bit_access : Bool
  uniform_and_storage_buffer_8bit_access : Bool
  storage_push_constant8 : Bool
  shader_buffer_int64_atomics : Bool
  shader_shared_int64_atomics : Bool
  shader_float16 : Bool
  shader_int8 : Bool
  descriptor_indexing : Bool
  shader_input_attachment_array_dynamic_indexing : Bool
  shader_uniform_texel_buffer_array_dynamic_indexing : Bool
  shader_storage_texel_buffer_array_dynamic_indexing : Bool
  shader_uniform_buffer_array_non_uniform_indexing : Bool
  shader_sampled_image_array_non_uniform_indexing : Bool
  shader_storage_buffer_array_non_uniform_indexing : Bool
  shader_storage_image_array_non_uniform_indexing : Bool
  shader_input_attachment_array_non_uniform_indexing : Bool
  shader_uniform_texel_buffer_array_non_uniform_indexing : Bool
  shader_storage_texel_buffer_array_non_uniform_indexing : Bool
  descriptor_binding_uniform_buffer_update_after_bind : Bool
  descriptor_binding_sampled_image_update_after_bind : Bool
  descriptor_binding_storage_image_update_after_bind : Bool
  descriptor_binding_storage_buffer_update_after_bind : Bool
  descriptor_binding_uniform_texel_buffer_update_after_bind : Bool
  descriptor_binding_storage_texel_buffer_update_after_bind : Bool
  descriptor_binding_update_unused_while_pending : Bool
  descriptor_binding_partially_bound : Bool
  descriptor_binding_variable_descriptor_count : Bool
  runtime_descriptor_array : Bool
  sampler_filter_minmax : Bool
  scalar_block_layout : Bool
  imageless_framebuffer : Bool
  uniform_buffer_standard_layout : Bool
  shader_subgroup_extended_types : Bool
  separate_depth_stencil_layouts : Bool
  host_query_reset : Bool
  timeline_semaphore : Bool
  buffer_device_address : Bool
  buffer_device_address_capture_replay : Bool
  buffer_device_address_multi_device : Bool
  vulkan_memory_model : Bool
  vulkan_memory_model_device_scope : Bool
  vulkan_memory_model_availability_visibility_chains : Bool
  shader_output_viewport_index : Bool
  shader_output_layer : Bool
  subgroup_broadcast_dynamic_id : Bool
deriving DecidableEq, Repr, Inhabited

structure PhysicalDeviceVulkan13Features where
  robust_image_access : Bool
  inline_uniform_block : Bool
  descriptor_binding_inline_uniform_block_update_after_bind : Bool
  pipeline_creation_cache_control : Bool
  private_data : Bool
  shader_demote_to_helper_invocation : Bool
  shader_terminate_invocation : Bool
  subgroup_size_control : Bool
  compute_full_subgroups : Bool
  synchronization2 : Bool
  texture_compression_astc_hdr : Bool
  shader_zero_initialize_workgroup_memory : Bool
  dynamic_rendering : Bool
  shader_integer_dot_product : Bool
  maintenance4 : Bool
deriving DecidableEq, Repr, Inhabited

/-- The structure-type tags distinguishing the three feature-struct versions
(the `s_type` field of the corresponding `vk` structs). -/
inductive StructureType where
  | PhysicalDeviceVulkan11Features
  | PhysicalDeviceVulkan12Features
  | PhysicalDeviceVulkan13Features
deriving DecidableEq, Repr

/-- Embeds the `VulkanPhysicalDeviceFeature2` enum (src/device.rs:309-313). -/
inductive VulkanPhysicalDeviceFeature2 where
  | PhysicalDeviceVulkan11 (f : PhysicalDeviceVulkan11Features)
  | PhysicalDeviceVulkan12 (f : PhysicalDeviceVulkan12Features)
  | PhysicalDeviceVulkan13 (f : PhysicalDeviceVulkan13Features)
deriving DecidableEq, Repr

/-- Embeds `VulkanPhysicalDeviceFeature2::s_type` (src/device.rs:773-779). -/
def VulkanPhysicalDeviceFeature2.s_type : VulkanPhysicalDeviceFeature2 → StructureType
  | .PhysicalDeviceVulkan11 _ => .PhysicalDeviceVulkan11Features
  | .PhysicalDeviceVulkan12 _ => .PhysicalDeviceVulkan12Features
  | .PhysicalDeviceVulkan13 _ => .PhysicalDeviceVulkan13Features

/-- The Vulkan-1.1 case of `match_features` (src/device.rs:321-371): every
requested-`TRUE` field must be supported (`!(r && !s)` per field). -/
def match_vulkan11 (r s : PhysicalDeviceVulkan11Features) : Bool :=
  !(r.storage_buffer_16bit_access && !s.storage_buffer_16bit_access) &&
  !(r.uniform_and_storage_buffer_16bit_access && !s.uniform_and_storage_buffer_16bit_access) &&
  !(r.storage_push_constant16 && !s.storage_push_constant16) &&
  !(r.storage_input_output16 && !s.storage_input_output16) &&
  !(r.multiview && !s.multiview) &&
  !(r.multiview_geometry_shader && !s.multiview_geometry_shader) &&
  !(r.multiview_tessellation_shader && !s.multiview_tessellation_shader) &&
  !(r.variable_pointers_storage_buffer && !s.variable_pointers_storage_buffer) &&
  !(r.variable_pointers && !s.variable_pointers) &&
  !(r.protected_memory && !s.protected_memory) &&
  !(r.sampler_ycbcr_conversion && !s.sampler_ycbcr_conversion) &&
  !(r.shader_draw_parameters && !s.shader_draw_parameters)

/-- The Vulkan-1.2 case of `match_features` (src/device.rs:372-583). -/
def match_vulkan12 (r s : PhysicalDeviceVulkan12Features) : Bool :=
  !(r.sampler_mirror_clamp_to_edge && !s.sampler_mirror_clamp_to_edge) &&
  !(r.draw_indirect_count && !s.draw_indirect_count) &&
  !(r.storage_buffer_8bit_access && !s.storage_buffer_8bit_access) &&
  !(r.uniform_and_storage_buffer_8bit_access && !s.uniform_and_storage_buffer_8bit_access) &&
  !(r.storage_push_constant8 && !s.storage_push_constant8) &&
  !(r.shader_buffer_int64_atomics && !s.shader_buffer_int64_atomics) &&
  !(r.shader_shared_int64_atomics && !s.shader_shared_int64_atomics) &&
  !(r.shader_float16 && !s.shader_float16) &&
  !(r.shader_int8 && !s.shader_int8) &&
  !(r.descriptor_indexing && !s.descriptor_indexing) &&
  !(r.shader_input_attachment_array_dynamic_indexing &&
    !s.shader_input_attachment_array_dynamic_indexing) &&
  !(r.shader_uniform_texel_buffer_array_dynamic_indexing &&
    !s.shader_uniform_texel_buffer_array_dynamic_indexing) &&
  !(r.shader_storage_texel_buffer_array_dynamic_indexing &&
    !s.shader_storage_texel_buffer_array_dynamic_indexing) &&
  !(r.shader_uniform_buffer_array_non_uniform_indexing &&
    !s.shader_uniform_buffer_array_non_uniform_indexing) &&
  !(r.shader_sampled_image_array_non_uniform_indexing &&
    !s.shader_sampled_image_array_non_uniform_indexing) &&
  !(r.shader_storage_buffer_array_non_uniform_indexing &&
    !s.shader_storage_buffer_array_non_uniform_indexing) &&
  !(r.shader_storage_image_array_non_uniform_indexing &&
    !s.shader_storage_image_array_non_uniform_indexing) &&
  !(r.shader_input_attachment_array_non_uniform_indexing &&
    !s.shader_input_attachment_array_non_uniform_indexing) &&
  !(r.shader_uniform_texel_buffer_array_non_uniform_indexing &&
    !s.shader_uniform_texel_buffer_array_non_uniform_indexing) &&
  !(r.shader_storage_texel_buffer_array_non_uniform_indexing &&
    !s.shader_storage_texel_buffer_array_non_uniform_indexing) &&
  !(r.descriptor_binding_uniform_buffer_update_after_bind &&
    !s.descriptor_binding_uniform_buffer_update_after_bind) &&
  !(r.descriptor_binding_sampled_image_update_after_bind &&
    !s.descriptor_binding_sampled_image_update_after_bind) &&
  !(r.descriptor_binding_storage_image_update_after_bind &&
    !s.descriptor_binding_storage_image_update_after_bind) &&
  !(r.descriptor_binding_storage_buffer_update_after_bind &&
    !s.descriptor_binding_storage_buffer_update_after_bind) &&
  !(r.descriptor_binding_uniform_texel_buffer_update_after_bind &&
    !s.descriptor_binding_uniform_texel_buffer_update_after_bind) &&
  !(r.descriptor_binding_storage_texel_buffer_update_after_bind &&
    !s.descriptor_binding_storage_texel_buffer_update_after_bind) &&
  !(r.descriptor_binding_update_unused_while_pending &&
    !s.descriptor_binding_update_unused_while_pending) &&
  !(r.descriptor_binding_partially_bound && !s.descriptor_binding_partially_bound) &&
  !(r.descriptor_binding_variable_descriptor_count &&
    !s.descriptor_binding_variable_descriptor_count) &&
  !(r.runtime_descriptor_array && !s.runtime_descriptor_array) &&
  !(r.sampler_filter_minmax && !s.sampler_filter_minmax) &&
  !(r.scalar_block_layout && !s.scalar_block_layout) &&
  !(r.imageless_framebuffer && !s.imageless_framebuffer) &&
  !(r.uniform_buffer_standard_layout && !s.uniform_buffer_standard_layout) &&
  !(r.shader_subgroup_extended_types && !s.shader_subgroup_extended_types) &&
  !(r.separate_depth_stencil_layouts && !s.separate_depth_stencil_layouts) &&
  !(r.host_query_reset && !s.host_query_reset) &&
  !(r.timeline_semaphore && !s.timeline_semaphore) &&
  !(r.buffer_device_address && !s.buffer_device_address) &&
  !(r.buffer_device_address_capture_replay && !s.buffer_device_address_capture_replay) &&
  !(r.buffer_device_address_multi_device && !s.buffer_device_address_multi_device) &&
  !(r.vulkan_memory_model && !s.vulkan_memory_model) &&
  !(r.vulkan_memory_model_device_scope && !s.vulkan_memory_model_device_scope) &&
  !(r.vulkan_memory_model_availability_visibility_chains &&
    !s.vulkan_memory_model_availability_visibility_chains) &&
  !(r.shader_output_viewport_index && !s.shader_output_viewport_index) &&
  !(r.shader_output_layer && !s.shader_output_layer) &&
  !(r.subgroup_broadcast_dynamic_id && !s.subgroup_broadcast_dynamic_id)

/-- The Vulkan-1.3 case of `match_features` (src/device.rs:584-647). -/
def match_vulkan13 (r s : PhysicalDeviceVulkan13Features) : Bool :=
  !(r.robust_image_access && !s.robust_image_access) &&
  !(r.inline_uniform_block && !s.inline_uniform_block) &&
  !(r.descriptor_binding_inline_uniform_block_update_after_bind &&
    !s.descriptor_binding_inline_uniform_block_update_after_bind) &&
  !(r.pipeline_creation_cache_control && !s.pipeline_creation_cache_control) &&
  !(r.private_data && !s.private_data) &&
  !(r.shader_demote_to_helper_invocation && !s.shader_demote_to_helper_invocation) &&
  !(r.shader_terminate_invocation && !s.shader_terminate_invocation) &&
  !(r.subgroup_size_control && !s.subgroup_size_control) &&
  !(r.compute_full_subgroups && !s.compute_full_subgroups) &&
  !(r.synchronization2 && !s.synchronization2) &&
  !(r.texture_compression_astc_hdr && !s.texture_compression_astc_hdr) &&
  !(r.shader_zero_initialize_workgroup_memory && !s.shader_zero_initialize_workgroup_memory) &&
  !(r.dynamic_rendering && !s.dynamic_rendering) &&
  !(r.shader_integer_dot_product && !s.shader_integer_dot_product) &&
  !(r.maintenance4 && !s.maintenance4)

/-- Embeds `match_features` (src/device.rs:315-650): implication match of a
requested node against a supported node of the same structure type.  The
source asserts equal `s_type` and marks mixed-variant pairs unreachable; in
this model a tag determines its variant, so the mixed cases (arbitrarily
valued `false` here) cannot arise from equal-tag calls. -/
def match_features (requested supported : VulkanPhysicalDeviceFeature2) : Bool :=
  match requested, supported with
  | .PhysicalDeviceVulkan11 r, .PhysicalDeviceVulkan11 s => match_vulkan11 r s
  | .PhysicalDeviceVulkan12 r, .PhysicalDeviceVulkan12 s => match_vulkan12 r s
  | .PhysicalDeviceVulkan13 r, .PhysicalDeviceVulkan13 s => match_vulkan13 r s
  | _, _ => false

/-- The Vulkan-1.1 case of `VulkanPhysicalDeviceFeature2::combine`
(src/device.rs:656-673): field-wise `|=`. -/
def combine_vulkan11 (f other : PhysicalDeviceVulkan11Features) :
    PhysicalDeviceVulkan11Features where
  storage_buffer_16bit_access :=
    f.storage_buffer_16bit_access || other.storage_buffer_16bit_access
  uniform_and_storage_buffer_16bit_access :=
    f.uniform_and_storage_buffer_16bit_access || other.uniform_and_storage_buffer_16bit_access
  storage_push_constant16 := f.storage_push_constant16 || other.storage_push_constant16
  storage_input_output16 := f.storage_input_output16 || other.storage_input_output16
  multiview := f.multiview || other.multiview
  multiview_geometry_shader := f.multiview_geometry_shader || other.multiview_geometry_shader
  multiview_tessellation_shader :=
    f.multiview_tessellation_shader || other.multiview_tessellation_shader
  variable_pointers_storage_buffer :=
    f.variable_pointers_storage_buffer || other.variable_pointers_storage_buffer
  variable_pointers := f.variable_pointers || other.variable_pointers
  protected_memory := f.protected_memory || other.protected_memory
  sampler_ycbcr_conversion := f.sampler_ycbcr_conversion || other.sampler_ycbcr_conversion
  shader_draw_parameters := f.shader_draw_parameters || other.shader_draw_parameters

/-- The Vulkan-1.2 case of `VulkanPhysicalDeviceFeature2::combine`
(src/device.rs:674-746). -/
def combine_vulkan12 (f other : PhysicalDeviceVulkan12Features) :
    PhysicalDeviceVulkan12Features where
  sampler_mirror_clamp_to_edge :=
    f.sampler_mirror_clamp_to_edge || other.sampler_mirror_clamp_to_edge
  draw_indirect_count := f.draw_indirect_count || other.draw_indirect_count
  storage_buffer_8bit_access := f.storage_buffer_8bit_access || other.storage_buffer_8bit_access
  uniform_and_storage_buffer_8bit_access :=
    f.uniform_and_storage_buffer_8bit_access || other.uniform_and_storage_buffer_8bit_access
  storage_push_constant8 := f.storage_push_constant8 || other.storage_push_constant8
  shader_buffer_int64_atomics :=
    f.shader_buffer_int64_atomics || other.shader_buffer_int64_atomics
  shader_shared_int64_atomics :=
    f.shader_shared_int64_atomics || other.shader_shared_int64_atomics
  shader_float16 := f.shader_float16 || other.shader_float16
  shader_int8 := f.shader_int8 || other.shader_int8
  descriptor_indexing := f.descriptor_indexing || other.descriptor_indexing
  shader_input_attachment_array_dynamic_indexing :=
    f.shader_input_attachment_array_dynamic_indexing ||
      other.shader_input_attachment_array_dynamic_indexing
  shader_uniform_texel_buffer_array_dynamic_indexing :=
    f.shader_uniform_texel_buffer_array_dynamic_indexing ||
      other.shader_uniform_texel_buffer_array_dynamic_indexing
  shader_storage_texel_buffer_array_dynamic_indexing :=
    f.shader_storage_texel_buffer_array_dynamic_indexing ||
      other.shader_storage_texel_buffer_array_dynamic_indexing
  shader_uniform_buffer_array_non_uniform_indexing :=
    f.shader_uniform_buffer_array_non_uniform_indexing ||
      other.shader_uniform_buffer_array_non_uniform_indexing
  shader_sampled_image_array_non_uniform_indexing :=
    f.shader_sampled_image_array_non_uniform_indexing ||
      other.shader_sampled_image_array_non_uniform_indexing
  shader_storage_buffer_array_non_uniform_indexing :=
    f.shader_storage_buffer_array_non_uniform_indexing ||
      other.shader_storage_buffer_array_non_uniform_indexing
  shader_storage_image_array_non_uniform_indexing :=
    f.shader_storage_image_array_non_uniform_indexing ||
      other.shader_storage_image_array_non_uniform_indexing
  shader_input_attachment_array_non_uniform_indexing :=
    f.shader_input_attachment_array_non_uniform_indexing ||
      other.shader_input_attachment_array_non_uniform_indexing
  shader_uniform_texel_buffer_array_non_uniform_indexing :=
    f.shader_uniform_texel_buffer_array_non_uniform_indexing ||
      other.shader_uniform_texel_buffer_array_non_uniform_indexing
  shader_storage_texel_buffer_array_non_uniform_indexing :=
    f.shader_storage_texel_buffer_array_non_uniform_indexing ||
      other.shader_storage_texel_buffer_array_non_uniform_indexing
  descriptor_binding_uniform_buffer_update_after_bind :=
    f.descriptor_binding_uniform_buffer_update_after_bind ||
      other.descriptor_binding_uniform_buffer_update_after_bind
  descriptor_binding_sampled_image_update_after_bind :=
    f.descriptor_binding_sampled_image_update_after_bind ||
      other.descriptor_binding_sampled_image_update_after_bind
  descriptor_binding_storage_image_update_after_bind :=
    f.descriptor_binding_storage_image_update_after_bind ||
      other.descriptor_binding_storage_image_update_after_bind
  descriptor_binding_storage_buffer_update_after_bind :=
    f.descriptor_binding_storage_buffer_update_after_bind ||
      other.descriptor_binding_storage_buffer_update_after_bind
  descriptor_binding_uniform_texel_buffer_update_after_bind :=
    f.descriptor_binding_uniform_texel_buffer_update_after_bind ||
      other.descriptor_binding_uniform_texel_buffer_update_after_bind
  descriptor_binding_storage_texel_buffer_update_after_bind :=
    f.descriptor_binding_storage_texel_buffer_update_after_bind ||
      other.descriptor_binding_storage_texel_buffer_update_after_bind
  descriptor_binding_update_unused_while_pending :=
    f.descriptor_binding_update_unused_while_pending ||
      other.descriptor_binding_update_unused_while_pending
  descriptor_binding_partially_bound :=
    f.descriptor_binding_partially_bound || other.descriptor_binding_partially_bound
  descriptor_binding_variable_descriptor_count :=
    f.descriptor_binding_variable_descriptor_count ||
      other.descriptor_binding_variable_descriptor_count
  runtime_descriptor_array := f.runtime_descriptor_array || other.runtime_descriptor_array
  sampler_filter_minmax := f.sampler_filter_minmax || other.sampler_filter_minmax
  scalar_block_layout := f.scalar_block_layout || other.scalar_block_layout
  imageless_framebuffer := f.imageless_framebuffer || other.imageless_framebuffer
  uniform_buffer_standard_layout :=
    f.uniform_buffer_standard_layout || other.uniform_buffer_standard_layout
  shader_subgroup_extended_types :=
    f.shader_subgroup_extended_types || other.shader_subgroup_extended_types
  separate_depth_stencil_layouts :=
    f.separate_depth_stencil_layouts || other.separate_depth_stencil_layouts
  host_query_reset := f.host_query_reset || other.host_query_reset
  timeline_semaphore := f.timeline_semaphore || other.timeline_semaphore
  buffer_device_address := f.buffer_device_address || other.buffer_device_address
  buffer_device_address_capture_replay :=
    f.buffer_device_address_capture_replay || other.buffer_device_address_capture_replay
  buffer_device_address_multi_device :=
    f.buffer_device_address_multi_device || other.buffer_device_address_multi_device
  vulkan_memory_model := f.vulkan_memory_model || other.vulkan_memory_model
  vulkan_memory_model_device_scope :=
    f.vulkan_memory_model_device_scope || other.vulkan_memory_model_device_scope
  vulkan_memory_model_availability_visibility_chains :=
    f.vulkan_memory_model_availability_visibility_chains ||
      other.vulkan_memory_model_availability_visibility_chains
  shader_output_viewport_index :=
    f.shader_output_viewport_index || other.shader_output_viewport_index
  shader_output_layer := f.shader_output_layer || other.shader_output_layer
  subgroup_broadcast_dynamic_id :=
    f.subgroup_broadcast_dynamic_id || other.subgroup_broadcast_dynamic_id

/-- The Vulkan-1.3 case of `VulkanPhysicalDeviceFeature2::combine`
(src/device.rs:747-768). -/
def combine_vulkan13 (f other : PhysicalDeviceVulkan13Features) :
    PhysicalDeviceVulkan13Features where
  robust_image_access := f.robust_image_access || other.robust_image_access
  inline_uniform_block := f.inline_uniform_block || other.inline_uniform_block
  descriptor_binding_inline_uniform_block_update_after_bind :=
    f.descriptor_binding_inline_uniform_block_update_after_bind ||
      other.descriptor_binding_inline_uniform_block_update_after_bind
  pipeline_creation_cache_control :=
    f.pipeline_creation_cache_control || other.pipeline_creation_cache_control
  private_data := f.private_data || other.private_data
  shader_demote_to_helper_invocation :=
    f.shader_demote_to_helper_invocation || other.shader_demote_to_helper_invocation
  shader_terminate_invocation :=
    f.shader_terminate_invocation || other.shader_terminate_invocation
  subgroup_size_control := f.subgroup_size_control || other.subgroup_size_control
  compute_full_subgroups := f.compute_full_subgroups || other.compute_full_subgroups
  synchronization2 := f.synchronization2 || other.synchronization2
  texture_compression_astc_hdr :=
    f.texture_compression_astc_hdr || other.texture_compression_astc_hdr
  shader_zero_initialize_workgroup_memory :=
    f.shader_zero_initialize_workgroup_memory || other.shader_zero_initialize_workgroup_memory
  dynamic_rendering := f.dynamic_rendering || other.dynamic_rendering
  shader_integer_dot_product :=
    f.shader_integer_dot_product || other.shader_integer_dot_product
  maintenance4 := f.maintenance4 || other.maintenance4

/-- Embeds `VulkanPhysicalDeviceFeature2::combine` (src/device.rs:652-771):
field-wise logical OR of two nodes of the same structure type.  The source
asserts equal `s_type` (panicking otherwise) and marks mixed-variant pairs
unreachable; this model returns `none` for them.  Every call site guards on
equal tags, under which the result is always `some`. -/
def VulkanPhysicalDeviceFeature2.combine :
    VulkanPhysicalDeviceFeature2 → VulkanPhysicalDeviceFeature2 →
      Option VulkanPhysicalDeviceFeature2
  | .PhysicalDeviceVulkan11 f, .PhysicalDeviceVulkan11 other =>
    some (.PhysicalDeviceVulkan11 (combine_vulkan11 f other))
  | .PhysicalDeviceVulkan12 f, .PhysicalDeviceVulkan12 other =>
    some (.PhysicalDeviceVulkan12 (combine_vulkan12 f other))
  | .PhysicalDeviceVulkan13 f, .PhysicalDeviceVulkan13 other =>
    some (.PhysicalDeviceVulkan13 (combine_vulkan13 f other))
  | _, _ => none

/-- Embeds `GenericFeatureChain` (src/device.rs:801-804). -/
structure GenericFeatureChain where
  nodes : List VulkanPhysicalDeviceFeature2
deriving DecidableEq, Repr

/-- Embeds `GenericFeatureChain::new` (src/device.rs:815-817), which is also
the `Default` value used by `populate_device_details`. -/
def GenericFeatureChain.new : GenericFeatureChain := { nodes := [] }

/-- The loop of `GenericFeatureChain::add` (src/device.rs:819-830): combine
the new node into the first node with the same tag, else push it at the
end. -/
def add_node (nodes : List VulkanPhysicalDeviceFeature2)
    (new_node : VulkanPhysicalDeviceFeature2) : List VulkanPhysicalDeviceFeature2 :=
  match nodes with
  | [] => [new_node]
  | node :: rest =>
    if node.s_type = new_node.s_type then
      match node.combine new_node with
      | some merged => merged :: rest
      | none => node :: rest
    else
      node :: add_node rest new_node

/-- Embeds `GenericFeatureChain::add` (src/device.rs:819-830). -/
def GenericFeatureChain.add (chain : GenericFeatureChain)
    (new_node : VulkanPhysicalDeviceFeature2) : GenericFeatureChain :=
  { nodes := add_node chain.nodes new_node }

/-- Embeds `GenericFeatureChain::match_all` (src/device.rs:832-847): `self`
is the supported chain; the lengths must agree and each requested node must
implication-match the supported node at the same position. -/
def GenericFeatureChain.match_all (self features_requested : GenericFeatureChain) : Bool :=
  if features_requested.nodes.length ≠ self.nodes.length then
    false
  else
    (features_requested.nodes.zip self.nodes).all fun p => match_features p.1 p.2

/-! ## Flat feature struct and suitability evaluation (src/device.rs) -/

/-- Embeds the `vk::Bool32` fields of `vk::PhysicalDeviceFeatures`, in the
order `supports_features` checks them (src/device.rs:30-84). -/
structure PhysicalDeviceFeatures where
  robust_buffer_access : Bool
  full_draw_index_uint32 : Bool
  image_cube_array : Bool
  independent_blend : Bool
  geometry_shader : Bool
  tessellation_shader : Bool
  sample_rate_shading : Bool
  dual_src_blend : Bool
  logic_op : Bool
  multi_draw_indirect : Bool
  draw_indirect_first_instance : Bool
  depth_clamp : Bool
  depth_bias_clamp : Bool
  fill_mode_non_solid : Bool
  depth_bounds : Bool
  wide_lines : Bool
  large_points : Bool
  alpha_to_one : Bool
  multi_viewport : Bool
  sampler_anisotropy : Bool
  texture_compression_etc2 : Bool
  texture_compression_astc_ldr : Bool
  texture_compression_bc : Bool
  occlusion_query_precise : Bool
  pipeline_statistics_query : Bool
  vertex_pipeline_stores_and_atomics : Bool
  fragment_stores_and_atomics : Bool
  shader_tessellation_and_geometry_point_size : Bool
  shader_image_gather_extended : Bool
  shader_storage_image_extended_formats : Bool
  shader_storage_image_multisample : Bool
  shader_storage_image_read_without_format : Bool
  shader_storage_image_write_without_format : Bool
  shader_uniform_buffer_array_dynamic_indexing : Bool
  shader_sampled_image_array_dynamic_indexing : Bool
  shader_storage_buffer_array_dynamic_indexing : Bool
  shader_storage_image_array_dynamic_indexing : Bool
  shader_clip_distance : Bool
  shader_cull_distance : Bool
  shader_float64 : Bool
  shader_int64 : Bool
  shader_int16 : Bool
  shader_resource_residency : Bool
  shader_resource_min_lod : Bool
  sparse_binding : Bool
  sparse_residency_buffer : Bool
  sparse_residency_image_2d : Bool
  sparse_residency_image_3d : Bool
  sparse_residency2_samples : Bool
  sparse_residency4_samples : Bool
  sparse_residency8_samples : Bool
  sparse_residency16_samples : Bool
  sparse_residency_aliased : Bool
  variable_multisample_rate : Bool
  inherited_queries : Bool
deriving DecidableEq, Repr, Inhabited

/-- Embeds `supports_features` (src/device.rs:16-87): every requested flat
feature flag must be supported, and the supported chain must
implication-match the requested chain. -/
def supports_features (supported requested : PhysicalDeviceFeatures)
    (features_supported features_requested : GenericFeatureChain) : Bool :=
  !(requested.robust_buffer_access && !supported.robust_buffer_access) &&
  !(requested.full_draw_index_uint32 && !supported.full_draw_index_uint32) &&
  !(requested.image_cube_array && !supported.image_cube_array) &&
  !(requested.independent_blend && !supported.independent_blend) &&
  !(requested.geometry_shader && !supported.geometry_shader) &&
  !(requested.tessellation_shader && !supported.tessellation_shader) &&
  !(requested.sample_rate_shading && !supported.sample_rate_shading) &&
  !(requested.dual_src_blend && !supported.dual_src_blend) &&
  !(requested.logic_op && !supported.logic_op) &&
  !(requested.multi_draw_indirect && !supported.multi_draw_indirect) &&
  !(requested.draw_indirect_first_instance && !supported.draw_indirect_first_instance) &&
  !(requested.depth_clamp && !supported.depth_clamp) &&
  !(requested.depth_bias_clamp && !supported.depth_bias_clamp) &&
  !(requested.fill_mode_non_solid && !supported.fill_mode_non_solid) &&
  !(requested.depth_bounds && !supported.depth_bounds) &&
  !(requested.wide_lines && !supported.wide_lines) &&
  !(requested.large_points && !supported.large_points) &&
  !(requested.alpha_to_one && !supported.alpha_to_one) &&
  !(requested.multi_viewport && !supported.multi_viewport) &&
  !(requested.sampler_anisotropy && !supported.sampler_anisotropy) &&
  !(requested.texture_compression_etc2 && !supported.texture_compression_etc2) &&
  !(requested.texture_compression_astc_ldr && !supported.texture_compression_astc_ldr) &&
  !(requested.texture_compression_bc && !supported.texture_compression_bc) &&
  !(requested.occlusion_query_precise && !supported.occlusion_query_precise) &&
  !(requested.pipeline_statistics_query && !supported.pipeline_statistics_query) &&
  !(requested.vertex_pipeline_stores_and_atomics &&
    !supported.vertex_pipeline_stores_and_atomics) &&
  !(requested.fragment_stores_and_atomics && !supported.fragment_stores_and_atomics) &&
  !(requested.shader_tessellation_and_geometry_point_size &&
    !supported.shader_tessellation_and_geometry_point_size) &&
  !(requested.shader_image_gather_extended && !supported.shader_image_gather_extended) &&
  !(requested.shader_storage_image_extended_formats &&
    !supported.shader_storage_image_extended_formats) &&
  !(requested.shader_storage_image_multisample &&
    !supported.shader_storage_image_multisample) &&
  !(requested.shader_storage_image_read_without_format &&
    !supported.shader_storage_image_read_without_format) &&
  !(requested.shader_storage_image_write_without_format &&
    !supported.shader_storage_image_write_without_format) &&
  !(requested.shader_uniform_buffer_array_dynamic_indexing &&
    !supported.shader_uniform_buffer_array_dynamic_indexing) &&
  !(requested.shader_sampled_image_array_dynamic_indexing &&
    !supported.shader_sampled_image_array_dynamic_indexing) &&
  !(requested.shader_storage_buffer_array_dynamic_indexing &&
    !supported.shader_storage_buffer_array_dynamic_indexing) &&
  !(requested.shader_storage_image_array_dynamic_indexing &&
    !supported.shader_storage_image_array_dynamic_indexing) &&
  !(requested.shader_clip_distance && !supported.shader_clip_distance) &&
  !(requested.shader_cull_distance && !supported.shader_cull_distance) &&
  !(requested.shader_float64 && !supported.shader_float64) &&
  !(requested.shader_int64 && !supported.shader_int64) &&
  !(requested.shader_int16 && !supported.shader_int16) &&
  !(requested.shader_resource_residency && !supported.shader_resource_residency) &&
  !(requested.shader_resource_min_lod && !supported.shader_resource_min_lod) &&
  !(requested.sparse_binding && !supported.sparse_binding) &&
  !(requested.sparse_residency_buffer && !supported.sparse_residency_buffer) &&
  !(requested.sparse_residency_image_2d && !supported.sparse_residency_image_2d) &&
  !(requested.sparse_residency_image_3d && !supported.sparse_residency_image_3d) &&
  !(requested.sparse_residency2_samples && !supported.sparse_residency2_samples) &&
  !(requested.sparse_residency4_samples && !supported.sparse_residency4_samples) &&
  !(requested.sparse_residency8_samples && !supported.sparse_residency8_samples) &&
  !(requested.sparse_residency16_samples && !supported.sparse_residency16_samples) &&
  !(requested.sparse_residency_aliased && !supported.sparse_residency_aliased) &&
  !(requested.variable_multisample_rate && !supported.variable_multisample_rate) &&
  !(requested.inherited_queries && !supported.inherited_queries) &&
  features_supported.match_all features_requested

/-- Embeds `PreferredDeviceType` (src/device.rs:177-186). -/
inductive PreferredDeviceType where
  | Other
  | Integrated
  | Discrete
  | VirtualGpu
  | Cpu
deriving DecidableEq, Repr

/-- The discriminant of `PreferredDeviceType`, which the category check casts
to a raw `vk::PhysicalDeviceType` value (src/device.rs:1125-1126). -/
def PreferredDeviceType.toRaw : PreferredDeviceType → Nat
  | .Other => 0
  | .Integrated => 1
  | .Discrete => 2
  | .VirtualGpu => 3
  | .Cpu => 4

/-- Embeds `Suitable` (src/device.rs:188-194); the derived order is
`Yes < Partial < No`. -/
inductive Suitable where
  | Yes
  | Partial
  | No
deriving DecidableEq, Repr

/-- Position of a verdict in the derived order `Yes < Partial < No`
("ascending badness"). -/
def Suitable.badness : Suitable → Nat
  | .Yes => 0
  | .Partial => 1
  | .No => 2

/-- The derived `Ord::cmp` on `Suitable`. -/
def Suitable.cmp (a b : Suitable) : Ordering := compare a.badness b.badness

/-- Embeds `PhysicalDeviceError` (src/error.rs:50-60). -/
inductive PhysicalDeviceError where
  | NoSurfaceProvided
  | FailedToEnumeratePhysicalDevices
  | NoPhysicalDevicesFound
  | NoSuitableDevice
deriving DecidableEq, Repr

/-- Raw bit of `vk::MemoryHeapFlags::DEVICE_LOCAL`. -/
def MEMORY_HEAP_DEVICE_LOCAL : Nat := 1

/-- The fields of `vk::MemoryHeap` read by the suitability check. -/
structure MemoryHeap where
  size : Nat
  flags : Nat
deriving DecidableEq, Repr

/-- Embeds `SelectionCriteria` (src/device.rs:850-869).  Extension names are
modelled as numeric codes; the required-extension `BTreeSet` is modelled as a
duplicate-free list. -/
structure SelectionCriteria where
  name : String
  preferred_device_type : PreferredDeviceType
  allow_any_type : Bool
  require_present : Bool
  require_dedicated_transfer_queue : Bool
  require_dedicated_compute_queue : Bool
  require_separate_transfer_queue : Bool
  require_separate_compute_queue : Bool
  required_mem_size : Nat
  required_extensions : List Nat
  required_version : Nat
  required_features : PhysicalDeviceFeatures
  requested_features_chain : GenericFeatureChain
  defer_surface_initialization : Bool
  use_first_gpu_unconditionally : Bool
  enable_portability_subset : Bool
deriving Repr

/-- Everything the driver reports about one enumerated `vk::PhysicalDevice`,
i.e. the results of the read-only queries `populate_device_details` and
`set_is_suitable` perform (src/device.rs:1157-1271, 989-1155):
properties (name, api version, raw device-type value), queue family table,
device extension names, flat features, memory heaps, the per-family
presentation-support probes, the surface format / present-mode query results
(`none` = the query call failed), and the feature-chain values
`get_physical_device_features2` would report. -/
structure PhysicalDeviceRaw where
  name : String
  api_version : Nat
  device_type : Nat
  queue_families : List QueueFamilyProperties
  available_extensions : List Nat
  features : PhysicalDeviceFeatures
  memory_heaps : List MemoryHeap
  present_probes : List (Option Bool)
  surface_formats : Option (List Nat)
  surface_present_modes : Option (List Nat)
  driver_features_chain : GenericFeatureChain
deriving Repr

/-- Embeds the data of `PhysicalDevice` (src/device.rs:196-214) that the
selection pipeline reads and writes, with the driver-query data of the
snapshot carried along. -/
structure PhysicalDevice where
  name : String
  api_version : Nat
  device_type : Nat
  queue_families : List QueueFamilyProperties
  available_extensions : List Nat
  features : PhysicalDeviceFeatures
  memory_heaps : List MemoryHeap
  present_probes : List (Option Bool)
  surface_formats : Option (List Nat)
  surface_present_modes : Option (List Nat)
  extensions_to_enable : List Nat
  suitable : Suitable
  supported_features_chain : GenericFeatureChain
  requested_features_chain : GenericFeatureChain
deriving Repr

set_option linter.unusedVariables false in
/-- Embeds the supported-features-chain population step of
`PhysicalDeviceSelector::populate_device_details` (src/device.rs:1238-1268).
When the requested chain is non-empty and capability-struct querying is
available, the source clones the requested chain into a local
`supported_features`, lets the driver write its reported values into that
local clone, then drops it and stores a second clone of the *requested*
chain; the driver-reported values (`driver_reported` here) therefore do not
flow into the result.  Otherwise the field keeps its `Default` value, the
empty chain. -/
def populate_supported_features_chain (instance_is_11 properties2_ext_enabled : Bool)
    (requested_features_chain : GenericFeatureChain)
    (driver_reported : GenericFeatureChain) : GenericFeatureChain :=
  if !requested_features_chain.nodes.isEmpty &&
      (instance_is_11 || properties2_ext_enabled) then
    requested_features_chain
  else
    GenericFeatureChain.new

/-- Embeds `PhysicalDeviceSelector::populate_device_details`
(src/device.rs:1157-1271) as a pure function of the driver-reported
snapshot: copies the queried data, defaults `suitable` to `Yes` and
`extensions_to_enable` to empty, stores the requested chain, and populates
the supported chain as described above. -/
def populate_device_details (criteria : SelectionCriteria)
    (instance_is_11 properties2_ext_enabled : Bool)
    (raw : PhysicalDeviceRaw) : PhysicalDevice where
  name := raw.name
  api_version := raw.api_version
  device_type := raw.device_type
  queue_families := raw.queue_families
  available_extensions := raw.available_extensions
  features := raw.features
  memory_heaps := raw.memory_heaps
  present_probes := raw.present_probes
  surface_formats := raw.surface_formats
  surface_present_modes := raw.surface_present_modes
  extensions_to_enable := []
  suitable := .Yes
  supported_features_chain :=
    populate_supported_features_chain instance_is_11 properties2_ext_enabled
      criteria.requested_features_chain raw.driver_features_chain
  requested_features_chain := criteria.requested_features_chain

/-- Embeds `check_device_extension_support` (src/device.rs:159-175): the set
of required extension names present among the available ones. -/
def check_device_extension_support (available_extensions required_extensions : List Nat) :
    List Nat :=
  required_extensions.filter fun req => available_extensions.contains req

/-! ### `set_is_suitable` (src/device.rs:989-1155)

The source mutates `device.suitable` (initially `Yes`) through a sequence of
checks, each either returning early with `No`, setting `Partial` and
continuing, or leaving the verdict alone.  Each check below is a function on
the running verdict; a check receiving `No` passes it through, modelling that
the source already returned.  `surface_some` models `self.surface.is_some()`
on the selector. -/

/-- Name filter (src/device.rs:994-1005). -/
def check_name (criteria : SelectionCriteria) (device : PhysicalDevice)
    (v : Suitable) : Suitable :=
  if v = .No then v
  else if criteria.name ≠ "" ∧ criteria.name ≠ device.name then .No
  else v

/-- API-version floor (src/device.rs:1007-1022). -/
def check_version (criteria : SelectionCriteria) (device : PhysicalDevice)
    (v : Suitable) : Suitable :=
  if v = .No then v
  else if criteria.required_version > device.api_version then .No
  else v

/-- Dedicated-compute requirement (src/device.rs:1055-1058). -/
def check_dedicated_compute (criteria : SelectionCriteria) (device : PhysicalDevice)
    (v : Suitable) : Suitable :=
  if v = .No then v
  else if criteria.require_dedicated_compute_queue ∧
      get_dedicated_queue_index device.queue_families QUEUE_COMPUTE QUEUE_TRANSFER = none then
    .No
  else v

/-- Dedicated-transfer requirement (src/device.rs:1060-1063). -/
def check_dedicated_transfer (criteria : SelectionCriteria) (device : PhysicalDevice)
    (v : Suitable) : Suitable :=
  if v = .No then v
  else if criteria.require_dedicated_transfer_queue ∧
      get_dedicated_queue_index device.queue_families QUEUE_TRANSFER QUEUE_COMPUTE = none then
    .No
  else v

/-- Separate-transfer requirement (src/device.rs:1065-1068). -/
def check_separate_transfer (criteria : SelectionCriteria) (device : PhysicalDevice)
    (v : Suitable) : Suitable :=
  if v = .No then v
  else if criteria.require_separate_transfer_queue ∧
      get_separate_queue_index device.queue_families QUEUE_TRANSFER QUEUE_COMPUTE = none then
    .No
  else v

/-- Separate-compute requirement (src/device.rs:1070-1073). -/
def check_separate_compute (criteria : SelectionCriteria) (device : PhysicalDevice)
    (v : Suitable) : Suitable :=
  if v = .No then v
  else if criteria.require_separate_compute_queue ∧
      get_separate_queue_index device.queue_families QUEUE_COMPUTE QUEUE_TRANSFER = none then
    .No
  else v

/-- Present-queue requirement (src/device.rs:1075-1081). -/
def check_present_queue (criteria : SelectionCriteria) (device : PhysicalDevice)
    (surface_some : Bool) (v : Suitable) : Suitable :=
  if v = .No then v
  else if criteria.require_present ∧
      get_present_queue_index surface_some device.present_probes = none ∧
      ¬criteria.defer_surface_initialization then
    .No
  else v

/-- Required-extension coverage (src/device.rs:1083-1091). -/
def check_extensions (criteria : SelectionCriteria) (device : PhysicalDevice)
    (v : Suitable) : Suitable :=
  if v = .No then v
  else if (check_device_extension_support device.available_extensions
      criteria.required_extensions).length ≠ criteria.required_extensions.length then
    .No
  else v

/-- Surface format / present-mode queries (src/device.rs:1093-1123): only
performed when surface initialisation is not deferred, presentation is
required and a surface is bound; a failed query or an empty list is
disqualifying. -/
def check_surface_queries (criteria : SelectionCriteria) (device : PhysicalDevice)
    (surface_some : Bool) (v : Suitable) : Suitable :=
  if v = .No then v
  else if ¬criteria.defer_surface_initialization ∧ criteria.require_present ∧
      surface_some = true then
    match device.surface_formats, device.surface_present_modes with
    | none, _ => .No
    | some _, none => .No
    | some formats, some present_modes =>
      if present_modes.isEmpty ∨ formats.isEmpty then .No else v
  else v

/-- Preferred-category check (src/device.rs:1125-1129): a soft preference
that sets `Partial` and does not return. -/
def check_device_type (criteria : SelectionCriteria) (device : PhysicalDevice)
    (v : Suitable) : Suitable :=
  if v = .No then v
  else if ¬criteria.allow_any_type ∧
      device.device_type ≠ criteria.preferred_device_type.toRaw then
    .Partial
  else v

/-- Required flat features and feature-chain match (src/device.rs:1131-1141). -/
def check_features (criteria : SelectionCriteria) (device : PhysicalDevice)
    (v : Suitable) : Suitable :=
  if v = .No then v
  else if !supports_features device.features criteria.required_features
      device.supported_features_chain criteria.requested_features_chain then
    .No
  else v

/-- Device-local memory-heap size floor (src/device.rs:1145-1154). -/
def check_memory (criteria : SelectionCriteria) (device : PhysicalDevice)
    (v : Suitable) : Suitable :=
  if v = .No then v
  else if device.memory_heaps.any (fun heap =>
      flags_contains heap.flags MEMORY_HEAP_DEVICE_LOCAL &&
        decide (heap.size < criteria.required_mem_size)) then
    .No
  else v

/-- The checks of `set_is_suitable`, in source order. -/
def suitability_checks (criteria : SelectionCriteria) (device : PhysicalDevice)
    (surface_some : Bool) : List (Suitable → Suitable) :=
  [check_name criteria device,
   check_version criteria device,
   check_dedicated_compute criteria device,
   check_dedicated_transfer criteria device,
   check_separate_transfer criteria device,
   check_separate_compute criteria device,
   check_present_queue criteria device surface_some,
   check_extensions criteria device,
   check_surface_queries criteria device surface_some,
   check_device_type criteria device,
   check_features criteria device,
   check_memory criteria device]

/-- Embeds `PhysicalDeviceSelector::set_is_suitable` (src/device.rs:989-1155)
as the verdict it leaves in `device.suitable`: the checks are run in order on
the initial verdict `Yes`. -/
def set_is_suitable (criteria : SelectionCriteria) (device : PhysicalDevice)
    (surface_some : Bool) : Suitable :=
  (suitability_checks criteria device surface_some).foldl (fun v f => f v) .Yes

/-! ### Device selection (src/device.rs:1273-1359) -/

/-- Numeric code standing for the
`vk::KHR_PORTABILITY_ENUMERATION_EXTENSION` name. -/
def KHR_PORTABILITY_ENUMERATION : Nat := 1000

/-- Embeds the `fill_out_phys_dev_with_criteria` closure of `select_devices`
(src/device.rs:1289-1309): overwrite the device's flat features with the
required ones and rebuild `extensions_to_enable` from the required set plus,
when portability is enabled and advertised, the portability extension. -/
def fill_out_phys_dev_with_criteria (criteria : SelectionCriteria)
    (physical_device : PhysicalDevice) : PhysicalDevice :=
  let portability_ext_available :=
    physical_device.available_extensions.any fun ext =>
      criteria.enable_portability_subset && ext == KHR_PORTABILITY_ENUMERATION
  { physical_device with
    features := criteria.required_features
    extensions_to_enable :=
      criteria.required_extensions ++
        if portability_ext_available then [KHR_PORTABILITY_ENUMERATION] else [] }

/-- Ordered-set insertion keyed by the derived `Ord` of `PhysicalDevice`
(src/device.rs:238-242), which compares the `suitable` verdict only.  This is
the `BTreeSet` behaviour: the list is kept sorted by the key, and an element
whose key compares equal to a stored one is not inserted. -/
def btree_insert (stored : List PhysicalDevice) (device : PhysicalDevice) :
    List PhysicalDevice :=
  match stored with
  | [] => [device]
  | x :: rest =>
    match Suitable.cmp device.suitable x.suitable with
    | .lt => device :: x :: rest
    | .eq => x :: rest
    | .gt => x :: btree_insert rest device

/-- Collects devices into the uniqueness-enforcing ordered set, in
enumeration order. -/
def collect_btree (devices : List PhysicalDevice) : List PhysicalDevice :=
  devices.foldl btree_insert []

/-- Embeds `PhysicalDeviceSelector::select_devices` (src/device.rs:1273-1339)
as a pure function.  `surface_some` models `instance.surface.is_some()`;
`enumeration` models the outcome of `enumerate_physical_devices` (`.error`
for a failed driver call).  Every enumerated device is populated, evaluated,
dropped when `Unsuitable`, filled out with the criteria, and collected into
the ordered set.  (The source binds each populated device to a local
variable and stores the computed verdict into its `suitable` field before
the test; the pure model inlines that binding, writing the populated device
and its verdict out at each use.) -/
def select_devices (criteria : SelectionCriteria)
    (surface_some instance_is_11 properties2_ext_enabled : Bool)
    (enumeration : Except Unit (List PhysicalDeviceRaw)) :
    Except PhysicalDeviceError (List PhysicalDevice) :=
  if criteria.require_present ∧ ¬criteria.defer_surface_initialization ∧
      surface_some = false then
    .error .NoSurfaceProvided
  else
    match enumeration with
    | .error _ => .error .FailedToEnumeratePhysicalDevices
    | .ok physical_devices =>
      match physical_devices with
      | [] => .error .NoPhysicalDevicesFound
      | first :: rest =>
        if criteria.use_first_gpu_unconditionally then
          .ok [fill_out_phys_dev_with_criteria criteria
            (populate_device_details criteria instance_is_11 properties2_ext_enabled first)]
        else
          .ok (collect_btree ((first :: rest).filterMap fun raw =>
            if set_is_suitable criteria
                (populate_device_details criteria instance_is_11
                  properties2_ext_enabled raw) surface_some = .No then
              none
            else
              some (fill_out_phys_dev_with_criteria criteria
                { populate_device_details criteria instance_is_11
                    properties2_ext_enabled raw with
                  suitable := set_is_suitable criteria
                    (populate_device_details criteria instance_is_11
                      properties2_ext_enabled raw) surface_some })))

/-- Embeds `PhysicalDeviceSelector::select` (src/device.rs:1341-1359): an
empty result set is the `NoSuitableDevice` error, otherwise the first
(best-verdict) element of the ordered set is returned. -/
def select (criteria : SelectionCriteria)
    (surface_some instance_is_11 properties2_ext_enabled : Bool)
    (enumeration : Except Unit (List PhysicalDeviceRaw)) :
    Except PhysicalDeviceError PhysicalDevice :=
  match select_devices criteria surface_some instance_is_11 properties2_ext_enabled
      enumeration with
  | .error e => .error e
  | .ok [] => .error .NoSuitableDevice
  | .ok (device :: _) => .ok device

/-! ## Sample data used to exercise the pipeline on concrete inputs -/

/-- A selection configuration with no requirements: empty name filter,
version floor 0, no queue/extension/feature/memory requirements, presentation
not required, any device category allowed. -/
def sample_criteria : SelectionCriteria where
  name := ""
  preferred_device_type := .Discrete
  allow_any_type := true
  require_present := false
  require_dedicated_transfer_queue := false
  require_dedicated_compute_queue := false
  require_separate_transfer_queue := false
  require_separate_compute_queue := false
  required_mem_size := 0
  required_extensions := []
  required_version := 0
  required_features := default
  requested_features_chain := GenericFeatureChain.new
  defer_surface_initialization := false
  use_first_gpu_unconditionally := false
  enable_portability_subset := false

/-- A minimal discrete-GPU snapshot named "alpha". -/
def raw_alpha : PhysicalDeviceRaw where
  name := "alpha"
  api_version := 1
  device_type := 2
  queue_families := []
  available_extensions := []
  features := default
  memory_heaps := []
  present_probes := []
  surface_formats := some []
  surface_present_modes := some []
  driver_features_chain := GenericFeatureChain.new

/-- A second snapshot, identical to `raw_alpha` except for its name. -/
def raw_beta : PhysicalDeviceRaw := { raw_alpha with name := "beta" }

/-! ## Theorems -/

/-- C9: for a caller-supplied desired minimum image count of zero, the
negotiated image count is the surface minimum plus one, clamped down to the
surface maximum when that maximum is nonzero; in particular surface
(min 2, max 4) yields 3 and surface (min 4, max 4) yields 4.
(src/swapchain.rs:350-369; the builder's `required_min_image_count` is
always 0, its initial value.) -/
theorem image_count_default_min_plus_one_clamped (capabilities : SurfaceCapabilities) :
    negotiate_image_count 0 0 capabilities =
      .ok (if 0 < capabilities.max_image_count then
            min (capabilities.min_image_count + 1) capabilities.max_image_count
          else
            capabilities.min_image_count + 1) ∧
    negotiate_image_count 0 0 ⟨2, 4, ⟨0, 0⟩, ⟨0, 0⟩, ⟨0, 0⟩, 0⟩ = .ok 3 ∧
    negotiate_image_count 0 0 ⟨4, 4, ⟨0, 0⟩, ⟨0, 0⟩, ⟨0, 0⟩, 0⟩ = .ok 4 := by
  refine ⟨?_, rfl, rfl⟩
  simp only [negotiate_image_count, clamp_image_count]
  norm_num
  split_ifs <;> omega

/-- C1: the "requirement too low" check in `SwapchainBuilder::build`
(src/swapchain.rs:350-356) compares `required_min_image_count` — a field no
builder method ever writes, so it is still its initial value 0 — against the
surface minimum, instead of the caller-supplied `min_image_count`.  A caller
supplying the nonzero desired count 3 against a surface with minimum 2
(so 3 is not below the minimum) therefore still gets the
`RequiredMinImageCountTooLow` error, where the spec requires success with
the count negotiated to the surface minimum. -/
theorem image_count_check_reads_unset_required_field :
    (SwapchainBuilderCounts.new.desired_min_image_count 3).min_image_count = 3 ∧
    (SwapchainBuilderCounts.new.desired_min_image_count 3).required_min_image_count = 0 ∧
    negotiate_image_count
        (SwapchainBuilderCounts.new.desired_min_image_count 3).min_image_count
        (SwapchainBuilderCounts.new.desired_min_image_count 3).required_min_image_count
        ⟨2, 4, ⟨0, 0⟩, ⟨0, 0⟩, ⟨0, 0⟩, 0⟩ =
      .error .RequiredMinImageCountTooLow ∧
    ¬(3 < 2) :=
  ⟨rfl, rfl, rfl, by decide⟩

/-- C4 counterexample: a surface whose current extent is not the sentinel
reports current extent (300, 300); with min (10, 10) and max (1000, 1000)
the claim says the desired extent (50, 50) clamped into the range — i.e.
width `max 10 (min 1000 50) = 50` — is negotiated, but the code returns the
surface's current extent (300, 300) and ignores the desired extent. -/
theorem find_extent_nonsentinel_ignores_desired :
    find_extent 50 50 ⟨0, 0, ⟨300, 300⟩, ⟨10, 10⟩, ⟨1000, 1000⟩, 0⟩ = ⟨300, 300⟩ ∧
    (find_extent 50 50 ⟨0, 0, ⟨300, 300⟩, ⟨10, 10⟩, ⟨1000, 1000⟩, 0⟩).width ≠
      max 10 (min 1000 50) := by decide

/-- C4 (amended): when the surface reports the `u32::MAX` sentinel in
`current_extent.width`, the negotiated extent is the caller's desired extent
clamped component-wise into [min-extent, max-extent] — hence it lies in that
range whenever the range is nonempty; otherwise the negotiated extent is the
surface's current extent, the desired extent being ignored
(src/swapchain.rs:168-189). -/
theorem find_extent_spec_correct (desired_width desired_height : Nat)
    (capabilities : SurfaceCapabilities) :
    (capabilities.current_extent.width ≠ u32Max →
      find_extent desired_width desired_height capabilities =
        capabilities.current_extent) ∧
    (capabilities.current_extent.width = u32Max →
      find_extent desired_width desired_height capabilities =
        { width := max capabilities.min_image_extent.width
            (min capabilities.max_image_extent.width desired_width)
          height := max capabilities.min_image_extent.height
            (min capabilities.max_image_extent.height desired_height) } ∧
      (capabilities.min_image_extent.width ≤ capabilities.max_image_extent.width →
        capabilities.min_image_extent.width ≤
            (find_extent desired_width desired_height capabilities).width ∧
          (find_extent desired_width desired_height capabilities).width ≤
            capabilities.max_image_extent.width) ∧
      (capabilities.min_image_extent.height ≤ capabilities.max_image_extent.height →
        capabilities.min_image_extent.height ≤
            (find_extent desired_width desired_height capabilities).height ∧
          (find_extent desired_width desired_height capabilities).height ≤
            capabilities.max_image_extent.height)) := by
  constructor
  · intro h
    simp [find_extent, h]
  · intro h
    have hfe : find_extent desired_width desired_height capabilities =
        { width := max capabilities.min_image_extent.width
            (min capabilities.max_image_extent.width desired_width)
          height := max capabilities.min_image_extent.height
            (min capabilities.max_image_extent.height desired_height) } := by
      simp [find_extent, h]
    refine ⟨hfe, ?_, ?_⟩ <;> intro hrange <;> rw [hfe] <;> constructor <;> simp <;> omega

/-- C4 witness: the amended statement applied on both sides of the sentinel
split — a non-sentinel surface yields its current extent, and a sentinel
surface with range [(10, 10), (1000, 1000)] and desired (50, 50) yields an
extent inside the range. -/
theorem find_extent_spec_correct_witness :
    find_extent 50 50 ⟨0, 0, ⟨300, 300⟩, ⟨10, 10⟩, ⟨1000, 1000⟩, 0⟩ = ⟨300, 300⟩ ∧
    (10 ≤ (find_extent 50 50 ⟨0, 0, ⟨u32Max, 300⟩, ⟨10, 10⟩, ⟨1000, 1000⟩, 0⟩).width ∧
      (find_extent 50 50 ⟨0, 0, ⟨u32Max, 300⟩, ⟨10, 10⟩, ⟨1000, 1000⟩, 0⟩).width ≤ 1000) :=
  ⟨(find_extent_spec_correct 50 50 ⟨0, 0, ⟨300, 300⟩, ⟨10, 10⟩, ⟨1000, 1000⟩, 0⟩).1
      (by decide),
   ((find_extent_spec_correct 50 50 ⟨0, 0, ⟨u32Max, 300⟩, ⟨10, 10⟩, ⟨1000, 1000⟩, 0⟩).2
      rfl).2.1 (by decide)⟩

/-- A helper: `find?` returns the designated element when everything before
it fails the predicate and it satisfies it. -/
theorem find?_first_hit {α : Type} {p : α → Bool} (pre : List α) (d : α) (post : List α)
    (hpre : ∀ x ∈ pre, p x = false) (hd : p d = true) :
    (pre ++ d :: post).find? p = some d := by
  induction pre with
  | nil => simp [List.find?_cons, hd]
  | cons a rest ih =>
    have ha : p a = false := hpre a (by simp)
    simpa [List.find?_cons, ha] using ih fun x hx => hpre x (by simp [hx])

/-- C6 counterexample: against an empty surface-supported format list the
fallback `available[0]` in `find_best_surface_format`
(src/swapchain.rs:141-146) is an out-of-bounds index — the source panics
(modelled as `none`), so selection does not "never fail". -/
theorem find_best_surface_format_empty_available_fails :
    find_best_surface_format [] [⟨⟨96, 7⟩, .Main⟩] = none := rfl

/-- C6 (amended): for a priority-sorted desired list (the builder produces
one unless Main and Fallback registrations are interleaved; unsorted lists
are first reordered by an unstable sort) and a nonempty supported list,
selection never fails; the first desired entry — Main entries preceding
Fallback entries — whose format and color space exactly match some supported
entry wins; when none matches the first supported entry is returned; and the
desired list [FormatX (Main), FormatY (Fallback)] against a surface
supporting only [FormatY] selects FormatY (src/swapchain.rs:116-146). -/
theorem find_best_surface_format_spec_correct (available : List SurfaceFormatKHR)
    (desired : List Format) (hsorted : isSortedByPriority desired = true)
    (hne : available ≠ []) :
    (find_best_surface_format available desired).isSome = true ∧
    (∀ pre d post, desired = pre ++ d :: post →
      format_matches available d = true →
      (∀ d' ∈ pre, format_matches available d' = false) →
      find_best_surface_format available desired = some d.inner) ∧
    ((∀ d ∈ desired, format_matches available d = false) →
      find_best_surface_format available desired = available.head?) ∧
    find_best_surface_format [⟨97, 7⟩] [⟨⟨96, 7⟩, .Main⟩, ⟨⟨97, 7⟩, .Fallback⟩] =
      some ⟨97, 7⟩ := by
  obtain ⟨a0, rest, rfl⟩ : ∃ a0 rest, available = a0 :: rest := by
    cases available with
    | nil => exact absurd rfl hne
    | cons a0 rest => exact ⟨a0, rest, rfl⟩
  refine ⟨?_, ?_, ?_, rfl⟩
  · simp only [find_best_surface_format, find_desired_surface_format, hsorted, if_true]
    cases h : desired.find? (format_matches (a0 :: rest)) <;> simp [h]
  · intro pre d post hdes hmatch hpre
    subst hdes
    simp only [find_best_surface_format, find_desired_surface_format, hsorted, if_true]
    rw [find?_first_hit pre d post hpre hmatch]
  · intro hnone
    have h : desired.find? (format_matches (a0 :: rest)) = none :=
      List.find?_eq_none.mpr fun x hx => by simp [hnone x hx]
    simp [find_best_surface_format, find_desired_surface_format, hsorted, h]

/-- C6 witness: the amended statement applied to the scenario input — the
selection succeeds and returns FormatY, the Fallback entry, because the Main
entry matches nothing the surface supports. -/
theorem find_best_surface_format_spec_correct_witness :
    (find_best_surface_format [⟨97, 7⟩]
        [⟨⟨96, 7⟩, .Main⟩, ⟨⟨97, 7⟩, .Fallback⟩]).isSome = true ∧
    find_best_surface_format [⟨97, 7⟩] [⟨⟨96, 7⟩, .Main⟩, ⟨⟨97, 7⟩, .Fallback⟩] =
      some ⟨97, 7⟩ := by
  have h := find_best_surface_format_spec_correct [⟨97, 7⟩]
    [⟨⟨96, 7⟩, .Main⟩, ⟨⟨97, 7⟩, .Fallback⟩] (by decide) (by simp)
  exact ⟨h.1, h.2.1 [⟨⟨96, 7⟩, .Main⟩] ⟨⟨97, 7⟩, .Fallback⟩ [] rfl (by decide) (by decide)⟩

/-- The separate-queue loop computed against the first-good / last-fallback
description, generalised over the running enumeration index and the fallback
accumulator. -/
theorem get_separate_queue_index_loop_eq (desired_flags undesired_flags : Nat)
    (families : List QueueFamilyProperties) :
    ∀ (i : Nat) (index : Option Nat),
      get_separate_queue_index_loop families desired_flags undesired_flags i index =
        match first_index_with (separate_queue_good desired_flags undesired_flags) families with
        | some j => some (i + j)
        | none =>
          match last_index_with (separate_queue_fallback desired_flags) families with
          | some j => some (i + j)
          | none => index := by
  induction families with
  | nil =>
    intro i index
    simp [get_separate_queue_index_loop, first_index_with, last_index_with]
  | cons f rest ih =>
    intro i index
    by_cases hfb : (flags_contains f.queue_flags desired_flags &&
        !flags_contains f.queue_flags QUEUE_GRAPHICS) = true
    · by_cases hund : flags_contains f.queue_flags undesired_flags = true
      · have hgood : separate_queue_good desired_flags undesired_flags f = false := by
          simp [separate_queue_good, hfb, hund]
        have hfb' : separate_queue_fallback desired_flags f = true := hfb
        rw [show get_separate_queue_index_loop (f :: rest) desired_flags undesired_flags
              i index = get_separate_queue_index_loop rest desired_flags undesired_flags
              (i + 1) (some i) by
            simp [get_separate_queue_index_loop, hfb, hund]]
        rw [ih (i + 1) (some i)]
        simp only [first_index_with, hgood, if_false, last_index_with, hfb', if_true]
        cases h1 : first_index_with (separate_queue_good desired_flags undesired_flags)
            rest with
        | some j => simp [h1]; omega
        | none =>
          cases h2 : last_index_with (separate_queue_fallback desired_flags) rest with
          | some j => simp [h1, h2]; omega
          | none => simp [h1, h2]
      · have hgood : separate_queue_good desired_flags undesired_flags f = true := by
          simp only [separate_queue_good]
          simp only [Bool.not_eq_true] at hund
          simp [hfb, hund]
        rw [show get_separate_queue_index_loop (f :: rest) desired_flags undesired_flags
              i index = some i by
            simp only [Bool.not_eq_true] at hund
            simp [get_separate_queue_index_loop, hfb, hund]]
        simp [first_index_with, hgood]
    · have hfb0 : (flags_contains f.queue_flags desired_flags &&
          !flags_contains f.queue_flags QUEUE_GRAPHICS) = false := by
        simpa using hfb
      have hgood : separate_queue_good desired_flags undesired_flags f = false := by
        simp [separate_queue_good, hfb0]
      have hfb' : separate_queue_fallback desired_flags f = false := hfb0
      rw [show get_separate_queue_index_loop (f :: rest) desired_flags undesired_flags
            i index = get_separate_queue_index_loop rest desired_flags undesired_flags
            (i + 1) index by
          simp [get_separate_queue_index_loop, hfb0]]
      rw [ih (i + 1) index]
      simp only [first_index_with, hgood, if_false, last_index_with, hfb']
      cases h1 : first_index_with (separate_queue_good desired_flags undesired_flags)
          rest with
      | some j => simp [h1]; omega
      | none =>
        cases h2 : last_index_with (separate_queue_fallback desired_flags) rest with
        | some j => simp [h1, h2]; omega
        | none => simp [h1, h2]

/-- C3 counterexample: a table of two identical families, both with the
desired flag (COMPUTE) and the undesired flag (TRANSFER), neither with
graphics, has no good match, so the claim requires the first fallback —
index 0 — but `get_separate_queue_index` (src/device.rs:102-121) keeps
overwriting its fallback variable and returns index 1. -/
theorem separate_queue_fallback_is_last_not_first :
    get_separate_queue_index [⟨6⟩, ⟨6⟩] 2 4 = some 1 ∧
    first_index_with (separate_queue_fallback 2) [⟨6⟩, ⟨6⟩] = some 0 ∧
    (∀ f ∈ [(⟨6⟩ : QueueFamilyProperties), ⟨6⟩], separate_queue_good 2 4 f = false) ∧
    get_separate_queue_index [⟨6⟩, ⟨6⟩] 2 4 ≠
      first_index_with (separate_queue_fallback 2) [⟨6⟩, ⟨6⟩] := by decide

/-- C3 (amended): the separate-queue lookup returns the first family (lowest
index, in table order) containing the desired flag, lacking graphics, and
lacking the undesired flag, when such a family exists; otherwise it returns
the *last* family in table order containing the desired flag and lacking
graphics (the fallback that does have the undesired flag); otherwise it
returns no index (src/device.rs:102-121). -/
theorem get_separate_queue_index_spec_correct (families : List QueueFamilyProperties)
    (desired_flags undesired_flags : Nat) :
    get_separate_queue_index families desired_flags undesired_flags =
      separate_queue_index_spec families desired_flags undesired_flags := by
  unfold get_separate_queue_index separate_queue_index_spec
  rw [get_separate_queue_index_loop_eq]
  cases h1 : first_index_with (separate_queue_good desired_flags undesired_flags)
      families with
  | some j => simp [h1]
  | none =>
    cases h2 : last_index_with (separate_queue_fallback desired_flags) families with
    | some j => simp [h1, h2]
    | none => simp [h1, h2]

/-- Two nodes with the same tag always combine, and combining preserves the
tag. -/
theorem combine_eq_some_of_s_type_eq {n m : VulkanPhysicalDeviceFeature2}
    (h : n.s_type = m.s_type) :
    ∃ r, n.combine m = some r ∧ r.s_type = n.s_type := by
  cases n <;> cases m <;>
    simp_all [VulkanPhysicalDeviceFeature2.s_type, VulkanPhysicalDeviceFeature2.combine]

/-- Adding a node whose tag is already present leaves the tag list of the
chain unchanged. -/
theorem add_node_tags_of_mem (nodes : List VulkanPhysicalDeviceFeature2)
    (new_node : VulkanPhysicalDeviceFeature2)
    (h : new_node.s_type ∈ nodes.map VulkanPhysicalDeviceFeature2.s_type) :
    (add_node nodes new_node).map VulkanPhysicalDeviceFeature2.s_type =
      nodes.map VulkanPhysicalDeviceFeature2.s_type := by
  induction nodes with
  | nil => simp at h
  | cons node rest ih =>
    by_cases he : node.s_type = new_node.s_type
    · obtain ⟨r, hr, hst⟩ := combine_eq_some_of_s_type_eq he
      simp [add_node, he, hr, hst]
    · have h' : new_node.s_type ∈ rest.map VulkanPhysicalDeviceFeature2.s_type := by
        rcases List.mem_cons.mp h with h0 | h0
        · exact absurd h0.symm he
        · exact h0
      simp [add_node, he, ih h']

/-- Adding a node whose tag is absent appends the tag at the end. -/
theorem add_node_tags_of_not_mem (nodes : List VulkanPhysicalDeviceFeature2)
    (new_node : VulkanPhysicalDeviceFeature2)
    (h : new_node.s_type ∉ nodes.map VulkanPhysicalDeviceFeature2.s_type) :
    (add_node nodes new_node).map VulkanPhysicalDeviceFeature2.s_type =
      nodes.map VulkanPhysicalDeviceFeature2.s_type ++ [new_node.s_type] := by
  induction nodes with
  | nil => simp [add_node]
  | cons node rest ih =>
    have he : ¬node.s_type = new_node.s_type := by
      intro habs
      exact h (by simp [habs])
    have h' : new_node.s_type ∉ rest.map VulkanPhysicalDeviceFeature2.s_type := by
      intro habs
      exact h (by simp [habs])
    simp [add_node, he, ih h']

/-- C8: adding a node whose tag is already in the chain merges it into the
existing node (the tag list, hence the length, is unchanged — nothing is
appended); a chain with pairwise-distinct tags keeps pairwise-distinct tags
under `add`; and adding two Vulkan-1.3 nodes to the empty chain yields a
single node whose fields are the field-wise logical OR of the two
(src/device.rs:652-830). -/
theorem feature_chain_add_merges_by_or (chain : GenericFeatureChain)
    (new_node : VulkanPhysicalDeviceFeature2) :
    (new_node.s_type ∈ chain.nodes.map VulkanPhysicalDeviceFeature2.s_type →
      (chain.add new_node).nodes.map VulkanPhysicalDeviceFeature2.s_type =
        chain.nodes.map VulkanPhysicalDeviceFeature2.s_type ∧
      (chain.add new_node).nodes.length = chain.nodes.length) ∧
    ((chain.nodes.map VulkanPhysicalDeviceFeature2.s_type).Nodup →
      ((chain.add new_node).nodes.map VulkanPhysicalDeviceFeature2.s_type).Nodup) ∧
    (∀ a b : PhysicalDeviceVulkan13Features,
      ((GenericFeatureChain.new.add (.PhysicalDeviceVulkan13 a)).add
          (.PhysicalDeviceVulkan13 b)).nodes =
        [.PhysicalDeviceVulkan13
          { robust_image_access := a.robust_image_access || b.robust_image_access
            inline_uniform_block := a.inline_uniform_block || b.inline_uniform_block
            descriptor_binding_inline_uniform_block_update_after_bind :=
              a.descriptor_binding_inline_uniform_block_update_after_bind ||
                b.descriptor_binding_inline_uniform_block_update_after_bind
            pipeline_creation_cache_control :=
              a.pipeline_creation_cache_control || b.pipeline_creation_cache_control
            private_data := a.private_data || b.private_data
            shader_demote_to_helper_invocation :=
              a.shader_demote_to_helper_invocation || b.shader_demote_to_helper_invocation
            shader_terminate_invocation :=
              a.shader_terminate_invocation || b.shader_terminate_invocation
            subgroup_size_control := a.subgroup_size_control || b.subgroup_size_control
            compute_full_subgroups := a.compute_full_subgroups || b.compute_full_subgroups
            synchronization2 := a.synchronization2 || b.synchronization2
            texture_compression_astc_hdr :=
              a.texture_compression_astc_hdr || b.texture_compression_astc_hdr
            shader_zero_initialize_workgroup_memory :=
              a.shader_zero_initialize_workgroup_memory ||
                b.shader_zero_initialize_workgroup_memory
            dynamic_rendering := a.dynamic_rendering || b.dynamic_rendering
            shader_integer_dot_product :=
              a.shader_integer_dot_product || b.shader_integer_dot_product
            maintenance4 := a.maintenance4 || b.maintenance4 }]) := by
  refine ⟨?_, ?_, ?_⟩
  · intro h
    have ht := add_node_tags_of_mem chain.nodes new_node h
    refine ⟨ht, ?_⟩
    have := congrArg List.length ht
    simpa using this
  · intro h
    by_cases hm : new_node.s_type ∈ chain.nodes.map VulkanPhysicalDeviceFeature2.s_type
    · rw [GenericFeatureChain.add, add_node_tags_of_mem chain.nodes new_node hm]
      exact h
    · rw [GenericFeatureChain.add, add_node_tags_of_not_mem chain.nodes new_node hm]
      simp [List.nodup_append, h, hm]
  · intro a b
    rfl

/-- C8 witness: the merge theorem applied to a one-node Vulkan-1.3 chain —
the tag list stays `[PhysicalDeviceVulkan13Features]`, stays duplicate-free,
and the concrete round-trip of the spec (fields {true, false} then
{false, true}) yields one node with both fields true. -/
theorem feature_chain_add_merges_by_or_witness :
    ((GenericFeatureChain.mk
          [.PhysicalDeviceVulkan13 (default : PhysicalDeviceVulkan13Features)]).add
        (.PhysicalDeviceVulkan13 (default : PhysicalDeviceVulkan13Features))).nodes.map
        VulkanPhysicalDeviceFeature2.s_type =
      [StructureType.PhysicalDeviceVulkan13Features] ∧
    (((GenericFeatureChain.mk
          [.PhysicalDeviceVulkan13 (default : PhysicalDeviceVulkan13Features)]).add
        (.PhysicalDeviceVulkan13 (default : PhysicalDeviceVulkan13Features))).nodes.map
        VulkanPhysicalDeviceFeature2.s_type).Nodup ∧
    ((GenericFeatureChain.new.add
        (.PhysicalDeviceVulkan13
          { (default : PhysicalDeviceVulkan13Features) with synchronization2 := true })).add
      (.PhysicalDeviceVulkan13
        { (default : PhysicalDeviceVulkan13Features) with
          dynamic_rendering := true })).nodes =
      [.PhysicalDeviceVulkan13
        { (default : PhysicalDeviceVulkan13Features) with
          synchronization2 := true, dynamic_rendering := true }] := by
  have h := feature_chain_add_merges_by_or
    (GenericFeatureChain.mk
      [.PhysicalDeviceVulkan13 (default : PhysicalDeviceVulkan13Features)])
    (.PhysicalDeviceVulkan13 (default : PhysicalDeviceVulkan13Features))
  have h2 := feature_chain_add_merges_by_or GenericFeatureChain.new
    (.PhysicalDeviceVulkan13
      { (default : PhysicalDeviceVulkan13Features) with synchronization2 := true })
  refine ⟨(h.1 (by decide)).1, h.2.1 (by decide), ?_⟩
  have h3 := h2.2.2
    { (default : PhysicalDeviceVulkan13Features) with synchronization2 := true }
    { (default : PhysicalDeviceVulkan13Features) with dynamic_rendering := true }
  exact h3.trans (by decide)

/-- The implication match of a node against itself always succeeds. -/
theorem match_features_self (n : VulkanPhysicalDeviceFeature2) :
    match_features n n = true := by
  cases n <;> simp [match_features, match_vulkan11, match_vulkan12, match_vulkan13]

/-- The implication match of a chain against itself always succeeds. -/
theorem match_all_self (c : GenericFeatureChain) : c.match_all c = true := by
  simp only [GenericFeatureChain.match_all, ne_eq, not_true_eq_false, if_false]
  induction c.nodes with
  | nil => rfl
  | cons n rest ih => simpa [match_features_self] using ih

/-- C2: when capability-struct querying is available (instance ≥ 1.1 or the
properties2 extension enabled) and the requested chain is non-empty,
`populate_device_details` stores as the supported chain an exact clone of the
requested chain — the driver-reported values are written into a local copy
that is discarded — so the feature-chain implication match performed during
suitability evaluation succeeds no matter what the driver reported
(src/device.rs:1238-1268, 832-848, 1131-1141). -/
theorem supported_features_chain_clones_requested
    (instance_is_11 properties2_ext_enabled : Bool)
    (requested driver_reported : GenericFeatureChain)
    (hne : requested.nodes ≠ [])
    (hcap : instance_is_11 = true ∨ properties2_ext_enabled = true) :
    populate_supported_features_chain instance_is_11 properties2_ext_enabled
        requested driver_reported = requested ∧
    (populate_supported_features_chain instance_is_11 properties2_ext_enabled
        requested driver_reported).match_all requested = true := by
  have h1 : populate_supported_features_chain instance_is_11 properties2_ext_enabled
      requested driver_reported = requested := by
    rcases hcap with h | h <;>
      simp [populate_supported_features_chain, h, List.isEmpty_iff, hne]
  exact ⟨h1, by rw [h1]; exact match_all_self requested⟩

/-- C2 witness: a requested chain of one Vulkan-1.3 node (all fields false)
on a 1.1 instance, against a driver that actually reports a different chain:
the stored supported chain is the requested chain and the match succeeds. -/
theorem supported_features_chain_clones_requested_witness :
    populate_supported_features_chain true false
        ⟨[.PhysicalDeviceVulkan13 (default : PhysicalDeviceVulkan13Features)]⟩
        ⟨[.PhysicalDeviceVulkan13
            { (default : PhysicalDeviceVulkan13Features) with synchronization2 := true }]⟩ =
      ⟨[.PhysicalDeviceVulkan13 (default : PhysicalDeviceVulkan13Features)]⟩ ∧
    (populate_supported_features_chain true false
        ⟨[.PhysicalDeviceVulkan13 (default : PhysicalDeviceVulkan13Features)]⟩
        ⟨[.PhysicalDeviceVulkan13
            { (default : PhysicalDeviceVulkan13Features) with
              synchronization2 := true }]⟩).match_all
      ⟨[.PhysicalDeviceVulkan13 (default : PhysicalDeviceVulkan13Features)]⟩ = true :=
  supported_features_chain_clones_requested true false
    ⟨[.PhysicalDeviceVulkan13 (default : PhysicalDeviceVulkan13Features)]⟩
    ⟨[.PhysicalDeviceVulkan13
        { (default : PhysicalDeviceVulkan13Features) with synchronization2 := true }]⟩
    (by simp) (Or.inl rfl)

/-- C7: the suitability evaluation starts the verdict at `Yes` (Suitable)
and runs its checks in sequence; every check can only keep or increase the
badness of the verdict (`Yes < Partial < No`), never decrease it; and the
preferred-category check, when `allow_any_type` is false and the category
differs, downgrades the verdict to `Partial`, not to `No`
(src/device.rs:989-1155). -/
theorem set_is_suitable_downgrade_only (criteria : SelectionCriteria)
    (device : PhysicalDevice) (surface_some : Bool) :
    set_is_suitable criteria device surface_some =
      (suitability_checks criteria device surface_some).foldl (fun v f => f v) .Yes ∧
    (∀ f ∈ suitability_checks criteria device surface_some,
      ∀ v : Suitable, v.badness ≤ (f v).badness) ∧
    (¬criteria.allow_any_type →
      device.device_type ≠ criteria.preferred_device_type.toRaw →
      check_device_type criteria device .Yes = .Partial) := by
  refine ⟨rfl, ?_, ?_⟩
  · intro f hf v
    simp only [suitability_checks, List.mem_cons, List.not_mem_nil, or_false] at hf
    rcases hf with rfl | rfl | rfl | rfl | rfl | rfl | rfl | rfl | rfl | rfl | rfl | rfl <;>
      cases v <;>
        simp only [check_name, check_version, check_dedicated_compute,
          check_dedicated_transfer, check_separate_transfer, check_separate_compute,
          check_present_queue, check_extensions, check_surface_queries,
          check_device_type, check_features, check_memory] <;>
        (repeat' split) <;> first | decide | simp_all
  · intro h1 h2
    simp [check_device_type, h1, h2]

/-- C7 witness: on a category-restricted configuration and an integrated
device, the category check is a member of the check list, only raises
badness from `Yes`, and yields exactly `Partial`. -/
theorem set_is_suitable_downgrade_only_witness :
    Suitable.badness .Yes ≤
      (check_device_type { sample_criteria with allow_any_type := false }
        (populate_device_details { sample_criteria with allow_any_type := false }
          false false { raw_alpha with device_type := 1 }) .Yes).badness ∧
    check_device_type { sample_criteria with allow_any_type := false }
      (populate_device_details { sample_criteria with allow_any_type := false }
        false false { raw_alpha with device_type := 1 }) .Yes = .Partial := by
  have h := set_is_suitable_downgrade_only
    { sample_criteria with allow_any_type := false }
    (populate_device_details { sample_criteria with allow_any_type := false }
      false false { raw_alpha with device_type := 1 }) false
  refine ⟨h.2.1 _ (by simp [suitability_checks]) .Yes, h.2.2 (by decide) (by decide)⟩

/-- C5: two distinct devices ("alpha" and "beta", differing in name) that
both evaluate to the same suitability verdict are collected by
`select_devices` into the `Ord`-keyed set — whose key is the verdict alone
(src/device.rs:238-242) — and only the first survives: the second, comparing
equal to an already-stored device, is silently dropped
(src/device.rs:1317-1338). -/
theorem select_devices_drops_equal_verdict_device :
    (select_devices sample_criteria false false false
        (.ok [raw_alpha, raw_beta])).map (List.map PhysicalDevice.name) =
      .ok ["alpha"] ∧
    raw_alpha.name ≠ raw_beta.name :=
  ⟨rfl, by decide⟩

/-- C10: with the surface precondition satisfied, enumerating zero physical
devices yields the `NoPhysicalDevicesFound` error ("no candidates"), while a
non-empty enumeration whose every candidate evaluates to `Unsuitable` yields
the distinct `NoSuitableDevice` error ("no suitable candidate"); both are
ordinary error values of the selection functions
(src/device.rs:1283-1287, 1341-1359). -/
theorem select_distinct_empty_error_kinds (criteria : SelectionCriteria)
    (surface_some instance_is_11 properties2_ext_enabled : Bool)
    (hpre : ¬(criteria.require_present ∧ ¬criteria.defer_surface_initialization ∧
      surface_some = false)) :
    select criteria surface_some instance_is_11 properties2_ext_enabled (.ok []) =
      .error .NoPhysicalDevicesFound ∧
    (∀ raws : List PhysicalDeviceRaw, raws ≠ [] →
      criteria.use_first_gpu_unconditionally = false →
      (∀ raw ∈ raws,
        set_is_suitable criteria
          (populate_device_details criteria instance_is_11 properties2_ext_enabled raw)
          surface_some = .No) →
      select criteria surface_some instance_is_11 properties2_ext_enabled (.ok raws) =
        .error .NoSuitableDevice) ∧
    PhysicalDeviceError.NoPhysicalDevicesFound ≠ PhysicalDeviceError.NoSuitableDevice := by
  refine ⟨?_, ?_, by decide⟩
  · unfold select select_devices
    rw [if_neg hpre]
  · intro raws hne huf hall
    obtain ⟨first, rest, rfl⟩ := List.exists_cons_of_ne_nil hne
    have hfm : List.filterMap (fun raw =>
        if set_is_suitable criteria
            (populate_device_details criteria instance_is_11
              properties2_ext_enabled raw) surface_some = Suitable.No then
          none
        else
          some (fill_out_phys_dev_with_criteria criteria
            { populate_device_details criteria instance_is_11
                properties2_ext_enabled raw with
              suitable := set_is_suitable criteria
                (populate_device_details criteria instance_is_11
                  properties2_ext_enabled raw) surface_some })) (first :: rest) = [] := by
      rw [List.filterMap_eq_nil_iff]
      intro raw hraw
      have h := hall raw hraw
      have hred : (if set_is_suitable criteria
          (populate_device_details criteria instance_is_11
            properties2_ext_enabled raw) surface_some = Suitable.No then
            (none : Option PhysicalDevice)
          else
            some (fill_out_phys_dev_with_criteria criteria
              { populate_device_details criteria instance_is_11
                  properties2_ext_enabled raw with
                suitable := set_is_suitable criteria
                  (populate_device_details criteria instance_is_11
                    properties2_ext_enabled raw) surface_some })) = none := by
        rw [h]
        exact if_pos rfl
      exact hred
    unfold select select_devices
    rw [if_neg hpre]
    simp only [huf]
    rw [if_neg (show ¬(false = true) by decide), hfm]
    rfl

/-- C10 witness: a configuration requiring API version 99 (which the sample
device does not reach), presentation not required — the empty enumeration
gives `NoPhysicalDevicesFound` and the enumeration of the one unsuitable
device gives `NoSuitableDevice`. -/
theorem select_distinct_empty_error_kinds_witness :
    select { sample_criteria with required_version := 99 } false false false (.ok []) =
      .error .NoPhysicalDevicesFound ∧
    select { sample_criteria with required_version := 99 } false false false
        (.ok [raw_alpha]) = .error .NoSuitableDevice := by
  have h := select_distinct_empty_error_kinds
    { sample_criteria with required_version := 99 } false false false (by decide)
  refine ⟨h.1, h.2.1 [raw_alpha] (by simp) rfl ?_⟩
  intro raw hraw
  have : raw = raw_alpha := by simpa using hraw
  subst this
  rfl

end VkBootstrap
